import Mathlib

/-!
Shallow embedding of the rag-system repository (document chunking pipeline,
vector-store lifecycle, retriever, generator, and the RAG pipeline state
machine), together with theorems checking the natural-language specification
against the embedded code.

Python sources embedded here:
  config/settings.py        (defaults)
  src/text_processor.py     (TextProcessor)
  src/retriever.py          (DocumentRetriever)
  src/generator.py          (ResponseGenerator)
  src/document_loader.py    (DocumentLoader.load_directory)
  src/vector_store.py       (VectorStore)
  src/rag_pipeline.py       (RAGPipeline)

External collaborators (the langchain text splitter, the Chroma vector
database, the OpenAI embedding and chat services, the filesystem) are
modelled as explicit parameters or as boolean outcomes, exactly at the
points where the repository calls them.
-/

namespace RagSystem

/-- Python exception classes that the embedded code can raise. -/
inductive PyError where
  | valueError (msg : String)
  | fileNotFoundError (msg : String)
  | runtimeError (msg : String)
deriving Repr, DecidableEq

instance {ε α : Type _} [DecidableEq ε] [DecidableEq α] : DecidableEq (Except ε α) :=
fun x y =>
  match x, y with
  | .ok a, .ok b =>
      if h : a = b then .isTrue (congrArg Except.ok h)
      else .isFalse (fun hc => h (Except.ok.inj hc))
  | .error a, .error b =>
      if h : a = b then .isTrue (congrArg Except.error h)
      else .isFalse (fun hc => h (Except.error.inj hc))
  | .ok _, .error _ => .isFalse (fun hc => Except.noConfusion hc)
  | .error _, .ok _ => .isFalse (fun hc => Except.noConfusion hc)

/-- A langchain `Document`: `page_content` plus a string-keyed metadata map
(modelled as an association list). -/
structure Document where
  page_content : String
  metadata : List (String × String)
deriving Repr, DecidableEq

/-! Defaults from `config/settings.py` (`Settings` field defaults). -/

/-- Settings.chunk_size default (1000). -/
def defaultChunkSize : Int := 1000

/-- Settings.chunk_overlap default (200). -/
def defaultChunkOverlap : Int := 200

/-- Settings.retrieval_top_k default (5). -/
def defaultTopK : Int := 5

/-- Settings.retrieval_search_type default. -/
def defaultSearchType : String := "similarity"

/-- Settings.openai_temperature default (0.3), as a rational. -/
def defaultTemperature : ℚ := 3 / 10

/-- Settings.openai_chat_model default. -/
def defaultChatModel : String := "gpt-3.5-turbo"

/-- Python `x or default` for an optional int argument: `None` and `0` are
falsy in Python, so both select the default; any other int is kept. -/
def pyOrInt (x : Option Int) (default : Int) : Int :=
  match x with
  | none => default
  | some v => if v = 0 then default else v

/-- Python `x or default` for an optional string argument: `None` and the
empty string are falsy, so both select the default. -/
def pyOrStr (x : Option String) (default : String) : String :=
  match x with
  | none => default
  | some s => if s = "" then default else s

/-! TextProcessor (src/text_processor.py). -/

/-- The state a successfully constructed `TextProcessor` carries. -/
structure TextProcessor where
  chunk_size : Int
  chunk_overlap : Int
deriving Repr, DecidableEq

/-- Error message raised by the langchain splitter constructor when the
overlap exceeds the size. -/
def chunkOverlapErrMsg : String :=
  "Got a larger chunk overlap than chunk size, should be smaller."

/-- TextProcessor.__init__: resolves `chunk_size` and `chunk_overlap` with
Python `or` against the settings defaults, then constructs a langchain
`RecursiveCharacterTextSplitter`. The splitter base constructor
(langchain `TextSplitter.__init__`) raises `ValueError` if and only if
`chunk_overlap > chunk_size`; `TextProcessor.__init__` itself performs no
validation of its own. -/
def TextProcessor.init (chunk_size chunk_overlap : Option Int) :
    Except PyError TextProcessor :=
  let sz := pyOrInt chunk_size defaultChunkSize
  let ov := pyOrInt chunk_overlap defaultChunkOverlap
  if sz < ov then .error (.valueError chunkOverlapErrMsg)
  else .ok ⟨sz, ov⟩

/-- TextProcessor.split_documents: delegates the list of documents to the
configured langchain splitter (an external collaborator, passed here as a
function) and returns its result; the method body has no failure path of
its own. -/
def TextProcessor.split_documents (text_splitter : List Document → List Document)
    (documents : List Document) : List Document :=
  text_splitter documents

/-! DocumentRetriever (src/retriever.py). -/

/-- Configuration state of a `DocumentRetriever`. -/
structure DocumentRetriever where
  search_type : String
  top_k : Int
deriving Repr, DecidableEq

/-- DocumentRetriever.__init__: `search_type or settings.retrieval_search_type`
and `top_k or settings.retrieval_top_k`. -/
def DocumentRetriever.init (search_type : Option String) (top_k : Option Int) :
    DocumentRetriever :=
  { search_type := pyOrStr search_type defaultSearchType
    top_k := pyOrInt top_k defaultTopK }

/-- Result of a retrieve call: the `k` actually passed to the vector index
(`search_kwargs` of `as_retriever`) and the documents the index returned. -/
structure RetrieveResult where
  requestedK : Int
  docs : List Document
deriving Repr, DecidableEq

/-- DocumentRetriever.get_retriever: raises `RuntimeError` when the wrapped
vector store has no bound `vectorstore`; otherwise builds a langchain
retriever over it with `search_kwargs = {"k": self.top_k}`. The embedding
returns the `k` placed in `search_kwargs`. -/
def DocumentRetriever.get_retriever (r : DocumentRetriever) (vsBound : Bool) :
    Except PyError Int :=
  if vsBound then .ok r.top_k
  else .error (.runtimeError "Vector store not initialized")

/-- DocumentRetriever.retrieve: the body first computes `k = k or self.top_k`
(a local that the rest of the body never uses), then calls
`self.get_retriever()` — which configures the index with `self.top_k` —
and invokes the resulting retriever on the query. `index` is the underlying
vector index, an external collaborator answering a request for `k` results. -/
def DocumentRetriever.retrieve (r : DocumentRetriever) (vsBound : Bool)
    (index : Int → List Document) (k : Option Int) :
    Except PyError RetrieveResult :=
  let kLocal := pyOrInt k r.top_k
  match r.get_retriever vsBound with
  | .error e => .error e
  | .ok kwargsK =>
      let _ := kLocal
      .ok ⟨kwargsK, index kwargsK⟩

/-! ResponseGenerator (src/generator.py). -/

/-- The default system prompt template (`DEFAULT_SYSTEM_PROMPT`); the
retrieved context is substituted for the `{context}` placeholder by Python
`str.format`. -/
def DEFAULT_SYSTEM_PROMPT : String :=
  "You are a helpful expert assistant. Use the provided context to answer questions accurately and comprehensively.\n\nInstructions:\n- Base your answer strictly on the provided context\n- If the answer isn\x27t in the context, say \"I don\x27t have enough information to answer that question\"\n- Provide clear, well-structured explanations\n- Include relevant details and examples when available\n- Be concise but thorough\n\nContext:\n{context}\n"

/-- Configuration state of a `ResponseGenerator`. -/
structure ResponseGenerator where
  model_name : String
  temperature : ℚ
  system_prompt_template : String
deriving Repr, DecidableEq

/-- ResponseGenerator.__init__: `model or settings.openai_chat_model`,
`temperature if temperature is not None else settings.openai_temperature`
(an explicit None test, unlike the `or` used for the other fields), and
`system_prompt or DEFAULT_SYSTEM_PROMPT`. -/
def ResponseGenerator.init (model : Option String) (temperature : Option ℚ)
    (system_prompt : Option String) : ResponseGenerator :=
  { model_name := pyOrStr model defaultChatModel
    temperature :=
      match temperature with
      | none => defaultTemperature
      | some t => t
    system_prompt_template := pyOrStr system_prompt DEFAULT_SYSTEM_PROMPT }

/-- The label prefixed to the i-th context block. -/
def sourceLabel (i : Nat) : String :=
  "Source " ++ toString i ++ ":\n"

/-- The loop body of ResponseGenerator._format_context: for
`enumerate(documents, 1)` append `f"Source {i}:\n{doc.page_content}"`. -/
def formatContextParts : Nat → List Document → List String
  | _, [] => []
  | i, d :: ds => (sourceLabel i ++ d.page_content) :: formatContextParts (i + 1) ds

/-- ResponseGenerator._format_context: the numbered blocks joined with a
blank line. -/
def ResponseGenerator.formatContext (documents : List Document) : String :=
  String.intercalate "\n\n" (formatContextParts 1 documents)

/-- Everything a generate call produces: the two messages sent to the chat
model, the answer, and the returned source list. -/
structure GenerateResult where
  systemMessage : String
  userMessage : String
  answer : String
  sources : List Document
deriving Repr, DecidableEq

/-- The placeholder replaced by Python `str.format` in the system prompt. -/
def contextPlaceholder : String := "{context}"

/-- ResponseGenerator.generate: formats the context documents, substitutes
them into the system prompt template, sends the system message and the user
message `f"Question: {query}"` to the chat model (`llm`, an external
collaborator), and returns the model response content unchanged together
with the context documents it was given. -/
def ResponseGenerator.generate (g : ResponseGenerator)
    (llm : String → String → String) (query : String)
    (context_documents : List Document) : GenerateResult :=
  let context := ResponseGenerator.formatContext context_documents
  let sys := (g.system_prompt_template).replace contextPlaceholder context
  let questionPrefix := "Question: "
  let user := questionPrefix ++ query
  let answer := llm sys user
  ⟨sys, user, answer, context_documents⟩

/-! DocumentLoader.load_directory (src/document_loader.py).

The directory listing and the per-file loaders are external collaborators;
a directory load is determined by the per-file outcomes, one
`Except PyError (List Document)` per file found (in listing order). -/

/-- Error raised when the listing finds no supported files. -/
def noFilesFoundMsg : String := "No supported files found in directory"

/-- Error raised when every found file failed to load. -/
def noDocsLoadedMsg : String := "No documents could be loaded from any files"

/-- DocumentLoader.load_directory: raises `ValueError` when the listing is
empty; otherwise iterates the files, extending `all_documents` with each
successful load and skipping (`continue`) each per-file failure; finally
raises `ValueError` when no documents were collected, and returns the
collected documents otherwise. -/
def DocumentLoader.load_directory (files : List (Except PyError (List Document))) :
    Except PyError (List Document) :=
  if files.isEmpty then .error (.valueError noFilesFoundMsg)
  else
    let all_documents :=
      files.foldl
        (fun acc r =>
          match r with
          | .ok docs => acc ++ docs
          | .error _ => acc)
        ([] : List Document)
    if all_documents.isEmpty then .error (.valueError noDocsLoadedMsg)
    else .ok all_documents

/-- The documents of the successfully loaded files, in order (specification
side formulation used to state theorems about `load_directory`). -/
def okDocs (files : List (Except PyError (List Document))) : List Document :=
  (files.map (fun r => r.toOption.getD [])).flatten

/-! RAGPipeline and VectorStore (src/rag_pipeline.py, src/vector_store.py).

The observable state of one `RAGPipeline` object, as far as the
specification's state machine is concerned: whether the configured persist
directory exists on disk, whether `vector_store.vectorstore` is bound,
whether `self.retriever` is bound, and the `_is_initialized` flag. -/

structure PipelineState where
  dirExists : Bool
  vsBound : Bool
  retrieverBound : Bool
  is_initialized : Bool
deriving Repr, DecidableEq

/-- The state of a freshly constructed `RAGPipeline`: `self.retriever = None`
and `self._is_initialized = False`; the persist directory may or may not
already exist on disk. -/
def RAGPipeline.initState (dirExists : Bool) : PipelineState :=
  ⟨dirExists, false, false, false⟩

/-- Filesystem-visible actions performed at the persist location. -/
inductive FsEffect where
  | chromaLoad
  | mkdirParents
  | chromaCreate
  | deleteDir
deriving Repr, DecidableEq

/-- Call counters on the loader, chunker, and embedding collaborators.
`embedCalls` counts one embedding request per chunk handed to
`Chroma.from_documents`. -/
structure Counts where
  loaderCalls : Nat
  chunkerCalls : Nat
  embedCalls : Nat
deriving Repr, DecidableEq

/-- Outcome of running one pipeline mutation: the returned or raised value,
the pipeline state after the call (Python exceptions leave all assignments
made so far in place), the collaborator call counts, and the filesystem
effects at the persist location. -/
structure StepResult where
  result : Except PyError Unit
  state : PipelineState
  counts : Counts
  effects : List FsEffect
deriving Repr

/-- External collaborator outcomes consumed by one ingest call:
what `document_loader.load_documents` returns or raises, the configured
langchain splitter, and whether the embedding service succeeds for the
`Chroma.from_documents` call. -/
structure IngestEnv where
  loaderResult : Except PyError (List Document)
  text_splitter : List Document → List Document
  embedOk : Bool

/-- Message of the `FileNotFoundError` raised by VectorStore.load_existing. -/
def vectorStoreNotFoundMsg : String := "Vector store not found"

/-- Message of the `RuntimeError` raised by RAGPipeline.query before
initialization. -/
def notInitializedMsg : String :=
  "Pipeline not initialized. Call ingest_documents() or load_existing_index() first"

/-- Message of the aggregate embedding failure surfaced by
`Chroma.from_documents`. -/
def embeddingFailedMsg : String := "Embedding failed"

/-- RAGPipeline.ingest_documents. Branches exactly as the source does:
if `force_recreate` is false and `self.vector_store.persist_directory.exists()`,
it calls `vector_store.load_existing()` (which re-checks existence and opens
the Chroma store), binds a `DocumentRetriever`, sets `_is_initialized`, and
returns, touching none of the loader, chunker, or embedding collaborators.
Otherwise it calls the loader (propagating its exception unchanged), chunks
the documents, and calls `vector_store.create_from_documents`, which runs
`persist_directory.parent.mkdir(parents=True, exist_ok=True)` and then
`Chroma.from_documents`, which embeds every chunk and persists the new index
at the persist location (creating that directory); on success the retriever
is bound and `_is_initialized` set. No branch removes anything on disk. -/
def RAGPipeline.ingest_documents (force_recreate : Bool) (env : IngestEnv)
    (st : PipelineState) : StepResult :=
  if !force_recreate && st.dirExists then
    { result := .ok ()
      state := { st with vsBound := true, retrieverBound := true, is_initialized := true }
      counts := ⟨0, 0, 0⟩
      effects := [.chromaLoad] }
  else
    match env.loaderResult with
    | .error e =>
        { result := .error e
          state := st
          counts := ⟨1, 0, 0⟩
          effects := [] }
    | .ok documents =>
        let chunks := TextProcessor.split_documents env.text_splitter documents
        if env.embedOk then
          { result := .ok ()
            state :=
              { st with
                dirExists := true
                vsBound := true
                retrieverBound := true
                is_initialized := true }
            counts := ⟨1, 1, chunks.length⟩
            effects := [.mkdirParents, .chromaCreate] }
        else
          { result := .error (.runtimeError embeddingFailedMsg)
            state := st
            counts := ⟨1, 1, 0⟩
            effects := [.mkdirParents] }

/-- RAGPipeline.load_existing_index: calls `vector_store.load_existing()`,
which raises `FileNotFoundError` when the persist directory does not exist —
in that case the exception propagates before `self.retriever` or
`self._is_initialized` is assigned, so the pipeline state is unchanged.
On success the Chroma store is opened, the retriever bound, and the flag set. -/
def RAGPipeline.load_existing_index (st : PipelineState) : StepResult :=
  if st.dirExists then
    { result := .ok ()
      state := { st with vsBound := true, retrieverBound := true, is_initialized := true }
      counts := ⟨0, 0, 0⟩
      effects := [.chromaLoad] }
  else
    { result := .error (.fileNotFoundError vectorStoreNotFoundMsg)
      state := st
      counts := ⟨0, 0, 0⟩
      effects := [] }

/-- External collaborator outcomes consumed by one query call: what the
bound retriever's `invoke` returns or raises, and what the chat model
returns or raises. -/
structure QueryEnv where
  retrieved : Except PyError (List Document)
  llm : Except PyError String

/-- Outcome of RAGPipeline.query: the answer together with the optional
source list, or the raised exception; the pipeline state is never mutated
by a query. -/
structure QueryResult where
  result : Except PyError (String × Option (List Document))
  state : PipelineState
deriving Repr

/-- RAGPipeline.query: raises `RuntimeError` when `_is_initialized` is
false; otherwise calls `self.retriever.retrieve(question)` — whose
`get_retriever` raises `RuntimeError` when the vector store has no bound
`vectorstore` — then `self.generator.generate(question, relevant_docs)`,
and returns `(answer, sources)` when `return_sources` else `(answer, None)`. -/
def RAGPipeline.query (return_sources : Bool) (env : QueryEnv)
    (st : PipelineState) : QueryResult :=
  if !st.is_initialized then
    { result := .error (.runtimeError notInitializedMsg), state := st }
  else if !st.vsBound then
    { result := .error (.runtimeError "Vector store not initialized"), state := st }
  else
    match env.retrieved with
    | .error e => { result := .error e, state := st }
    | .ok relevant_docs =>
        match env.llm with
        | .error e => { result := .error e, state := st }
        | .ok answer =>
            { result := .ok (answer, if return_sources then some relevant_docs else none)
              state := st }

/-- The operations a caller can perform on a constructed pipeline, with the
collaborator outcomes each consumes. -/
inductive PipelineOp where
  | ingest (force_recreate : Bool) (env : IngestEnv)
  | loadExistingIndex
  | queryOp (return_sources : Bool) (env : QueryEnv)

/-- The pipeline state after running one operation (successful or not). -/
def RAGPipeline.step (st : PipelineState) : PipelineOp → PipelineState
  | .ingest force env => (RAGPipeline.ingest_documents force env st).state
  | .loadExistingIndex => (RAGPipeline.load_existing_index st).state
  | .queryOp rs env => (RAGPipeline.query rs env st).state

/-- The filesystem effects of running one operation; a query performs no
filesystem action at the persist location. -/
def RAGPipeline.stepEffects (st : PipelineState) : PipelineOp → List FsEffect
  | .ingest force env => (RAGPipeline.ingest_documents force env st).effects
  | .loadExistingIndex => (RAGPipeline.load_existing_index st).effects
  | .queryOp _ _ => []

/-- The `Ready` state of the specification: the initialization flag is set
and a retriever is bound. -/
def Ready (st : PipelineState) : Prop :=
  st.is_initialized = true ∧ st.retrieverBound = true

instance (st : PipelineState) : Decidable (Ready st) := by
  unfold Ready
  infer_instance

/-- A sample document used to instantiate collaborator outcomes. -/
def sampleDocument : Document := ⟨"hello world", [("source", "a.txt")]⟩

/-- A sample ingest environment whose collaborators all succeed. -/
def sampleIngestEnv : IngestEnv :=
  ⟨.ok [sampleDocument], fun documents => documents, true⟩

/-- A sample query environment whose collaborators all succeed. -/
def sampleQueryEnv : QueryEnv :=
  ⟨.ok [sampleDocument], .ok "the answer"⟩

/-! Helper lemmas shared by the claim theorems. -/

lemma formatContextParts_enumFrom (i : Nat) (ds : List Document) :
    formatContextParts i ds =
      (List.enumFrom i ds).map (fun p => sourceLabel p.1 ++ p.2.page_content) := by
  induction ds generalizing i with
  | nil => simp [formatContextParts]
  | cons d ds ih => simp [formatContextParts, List.enumFrom, ih]

lemma load_directory_foldl (files : List (Except PyError (List Document)))
    (acc : List Document) :
    files.foldl
        (fun acc r =>
          match r with
          | .ok docs => acc ++ docs
          | .error _ => acc)
        acc = acc ++ okDocs files := by
  induction files generalizing acc with
  | nil => simp [okDocs]
  | cons f fs ih =>
      cases f with
      | ok docs => simp [okDocs, ih, Except.toOption, List.append_assoc]
      | error e => simp [okDocs, ih, Except.toOption]

lemma query_state_id (rs : Bool) (env : QueryEnv) (st : PipelineState) :
    (RAGPipeline.query rs env st).state = st := by
  unfold RAGPipeline.query
  split
  · rfl
  · split
    · rfl
    · cases env.retrieved with
      | error e => rfl
      | ok docs =>
          cases env.llm with
          | error e => rfl
          | ok answer => rfl

lemma ingest_ok_state (force_recreate : Bool) (env : IngestEnv) (st : PipelineState)
    (h : (RAGPipeline.ingest_documents force_recreate env st).result = .ok ()) :
    (RAGPipeline.ingest_documents force_recreate env st).state.dirExists = true ∧
    (RAGPipeline.ingest_documents force_recreate env st).state.vsBound = true ∧
    (RAGPipeline.ingest_documents force_recreate env st).state.retrieverBound = true ∧
    (RAGPipeline.ingest_documents force_recreate env st).state.is_initialized = true := by
  revert h
  unfold RAGPipeline.ingest_documents
  split
  · rename_i hc
    intro _
    have hd : st.dirExists = true := ((Bool.and_eq_true _ _).mp hc).2
    simp [hd]
  · split
    · intro h
      simp at h
    · split
      · intro _
        simp
      · intro h
        simp at h

lemma load_ok_state (st : PipelineState)
    (h : (RAGPipeline.load_existing_index st).result = .ok ()) :
    (RAGPipeline.load_existing_index st).state.dirExists = true ∧
    (RAGPipeline.load_existing_index st).state.vsBound = true ∧
    (RAGPipeline.load_existing_index st).state.retrieverBound = true ∧
    (RAGPipeline.load_existing_index st).state.is_initialized = true := by
  revert h
  unfold RAGPipeline.load_existing_index
  split
  · rename_i hd
    intro _
    simp [hd]
  · intro h
    simp at h

lemma step_preserves_ready (st : PipelineState) (op : PipelineOp) (h : Ready st) :
    Ready (RAGPipeline.step st op) := by
  obtain ⟨h1, h2⟩ := h
  cases op with
  | ingest force env =>
      simp only [RAGPipeline.step]
      unfold RAGPipeline.ingest_documents
      split
      · exact ⟨rfl, rfl⟩
      · split
        · exact ⟨h1, h2⟩
        · split
          · exact ⟨rfl, rfl⟩
          · exact ⟨h1, h2⟩
  | loadExistingIndex =>
      simp only [RAGPipeline.step]
      unfold RAGPipeline.load_existing_index
      split
      · exact ⟨rfl, rfl⟩
      · exact ⟨h1, h2⟩
  | queryOp rs env =>
      simp only [RAGPipeline.step]
      rw [query_state_id]
      exact ⟨h1, h2⟩

lemma foldl_preserves_ready (ops : List PipelineOp) :
    ∀ st : PipelineState, Ready st → Ready (List.foldl RAGPipeline.step st ops) := by
  induction ops with
  | nil => intro st h; exact h
  | cons op ops ih => intro st h; exact ih _ (step_preserves_ready st op h)

/-! Claim theorems. -/

/-- C1: for every pipeline whose configured persist directory already exists
on disk, `ingest_documents` with `force_recreate = false` succeeds with zero
calls to the loader, chunker, and embedding collaborators and moves the
pipeline to Ready; the persist directory still exists afterwards, so a
second such ingest call again makes zero collaborator calls and leaves the
pipeline Ready both times. -/
theorem ingest_reuses_existing_index (st : PipelineState) (env env2 : IngestEnv)
    (h : st.dirExists = true) :
    (RAGPipeline.ingest_documents false env st).result = .ok () ∧
    (RAGPipeline.ingest_documents false env st).counts = ⟨0, 0, 0⟩ ∧
    Ready (RAGPipeline.ingest_documents false env st).state ∧
    (RAGPipeline.ingest_documents false env2
        (RAGPipeline.ingest_documents false env st).state).result = .ok () ∧
    (RAGPipeline.ingest_documents false env2
        (RAGPipeline.ingest_documents false env st).state).counts = ⟨0, 0, 0⟩ ∧
    Ready (RAGPipeline.ingest_documents false env2
        (RAGPipeline.ingest_documents false env st).state).state := by
  simp [RAGPipeline.ingest_documents, h, Ready]

/-- Witness for C1 at a concrete pipeline state and concrete collaborator
environments. -/
theorem ingest_reuses_existing_index_witness :
    (RAGPipeline.ingest_documents false sampleIngestEnv ⟨true, false, false, false⟩).result
        = .ok () ∧
    (RAGPipeline.ingest_documents false sampleIngestEnv ⟨true, false, false, false⟩).counts
        = ⟨0, 0, 0⟩ ∧
    Ready (RAGPipeline.ingest_documents false sampleIngestEnv ⟨true, false, false, false⟩).state ∧
    (RAGPipeline.ingest_documents false sampleIngestEnv
        (RAGPipeline.ingest_documents false sampleIngestEnv ⟨true, false, false, false⟩).state).result
        = .ok () ∧
    (RAGPipeline.ingest_documents false sampleIngestEnv
        (RAGPipeline.ingest_documents false sampleIngestEnv ⟨true, false, false, false⟩).state).counts
        = ⟨0, 0, 0⟩ ∧
    Ready (RAGPipeline.ingest_documents false sampleIngestEnv
        (RAGPipeline.ingest_documents false sampleIngestEnv ⟨true, false, false, false⟩).state).state :=
  ingest_reuses_existing_index ⟨true, false, false, false⟩ sampleIngestEnv sampleIngestEnv rfl

/-- C2 (code bug): `DocumentRetriever.retrieve` computes `k = k or self.top_k`
but never uses it — the langchain retriever is built by `get_retriever` with
`search_kwargs = {"k": self.top_k}` — so a retriever configured with
`top_k = 5` asked to retrieve with override `k = 3` requests 5 results from
the vector index, not 3. -/
theorem retrieve_ignores_k_override :
    DocumentRetriever.retrieve ⟨"similarity", 5⟩ true (fun _ => []) (some 3)
        = .ok ⟨5, []⟩ ∧
    DocumentRetriever.retrieve ⟨"similarity", 5⟩ true (fun _ => []) (some 3)
        ≠ .ok ⟨3, []⟩ := by
  refine ⟨rfl, ?_⟩
  intro hc
  have h5 : (5 : Int) = 3 := congrArg RetrieveResult.requestedK (Except.ok.inj hc)
  exact absurd h5 (by decide)

/-- C3 counterexample: the chunker constructor accepts `chunk_overlap` equal
to `chunk_size`, a negative `chunk_overlap`, and a zero `chunk_size` (zero is
silently replaced by the default 1000), contradicting the claim that these
configurations fail at construction. -/
theorem chunker_accepts_claimed_invalid_configs :
    TextProcessor.init (some 100) (some 100) = .ok ⟨100, 100⟩ ∧
    TextProcessor.init (some 100) (some (-5)) = .ok ⟨100, -5⟩ ∧
    TextProcessor.init (some 0) (some 50) = .ok ⟨1000, 50⟩ := by
  refine ⟨?_, ?_, ?_⟩ <;> decide

/-- C3 (amended): construction succeeds exactly when the effective overlap —
after Python `or`-defaulting, which replaces both an absent and a zero
argument by the settings defaults (size 1000, overlap 200) — is at most the
effective size; the only rejection is the langchain splitter's
`chunk_overlap > chunk_size` check, and `split_documents` has no failure
path of its own. -/
theorem chunker_construction_characterization (cs ov : Option Int) :
    ((∃ tp, TextProcessor.init cs ov = .ok tp ∧
        tp.chunk_size = pyOrInt cs defaultChunkSize ∧
        tp.chunk_overlap = pyOrInt ov defaultChunkOverlap) ↔
      pyOrInt ov defaultChunkOverlap ≤ pyOrInt cs defaultChunkSize) ∧
    (∀ (text_splitter : List Document → List Document) (documents : List Document),
      TextProcessor.split_documents text_splitter documents = text_splitter documents) := by
  constructor
  · by_cases hlt : pyOrInt cs defaultChunkSize < pyOrInt ov defaultChunkOverlap
    · simp only [TextProcessor.init, hlt, if_true]
      constructor
      · rintro ⟨tp, htp, -, -⟩
        exact absurd htp (by simp)
      · intro hle
        omega
    · simp only [TextProcessor.init, hlt, if_false]
      constructor
      · intro _
        omega
      · intro _
        exact ⟨⟨pyOrInt cs defaultChunkSize, pyOrInt ov defaultChunkOverlap⟩, rfl, rfl, rfl⟩
  · intro text_splitter documents
    rfl

/-- C4 counterexample: ingesting with `force_recreate = true` while a
persisted index exists at the configured location succeeds but performs no
deletion of the on-disk location — its filesystem effects are exactly the
parent `mkdir` and the Chroma write into the same directory. -/
theorem force_recreate_performs_no_delete :
    (RAGPipeline.ingest_documents true sampleIngestEnv ⟨true, false, false, false⟩).result
        = .ok () ∧
    (RAGPipeline.ingest_documents true sampleIngestEnv ⟨true, false, false, false⟩).effects
        = [.mkdirParents, .chromaCreate] ∧
    FsEffect.deleteDir ∉
      (RAGPipeline.ingest_documents true sampleIngestEnv ⟨true, false, false, false⟩).effects := by
  refine ⟨rfl, rfl, ?_⟩
  decide

/-- C4 (amended): `force_recreate = true` bypasses the reuse check and
creates the new index at the same location without deleting the old on-disk
storage; no pipeline operation ever deletes the persist location, and a
persist directory that exists keeps existing across every operation. -/
theorem no_operation_deletes_persist_location (st : PipelineState) (op : PipelineOp)
    (h : st.dirExists = true) :
    FsEffect.deleteDir ∉ RAGPipeline.stepEffects st op ∧
    (RAGPipeline.step st op).dirExists = true := by
  cases op with
  | ingest force env =>
      simp only [RAGPipeline.stepEffects, RAGPipeline.step]
      unfold RAGPipeline.ingest_documents
      split
      · simp [h]
      · split
        · simp [h]
        · split
          · simp
          · simp [h]
  | loadExistingIndex =>
      simp only [RAGPipeline.stepEffects, RAGPipeline.step]
      unfold RAGPipeline.load_existing_index
      split
      · simp [h]
      · simp [h]
  | queryOp rs env =>
      simp only [RAGPipeline.stepEffects, RAGPipeline.step]
      rw [query_state_id]
      simp [h]

/-- Witness for the amended C4 at a concrete state and operation. -/
theorem no_operation_deletes_persist_location_witness :
    FsEffect.deleteDir ∉
      RAGPipeline.stepEffects ⟨true, false, false, false⟩
        (.ingest true sampleIngestEnv) ∧
    (RAGPipeline.step ⟨true, false, false, false⟩
        (.ingest true sampleIngestEnv)).dirExists = true :=
  no_operation_deletes_persist_location ⟨true, false, false, false⟩
    (.ingest true sampleIngestEnv) rfl

/-- C5: on a freshly constructed pipeline every query fails with the
not-initialized `RuntimeError`; immediately after a successful
`ingest_documents` or `load_existing_index`, a query whose retrieval and
generation collaborators succeed returns the generated answer, with the
retrieved sources when requested. -/
theorem query_state_guard (d : Bool) (rs : Bool) (qenv : QueryEnv)
    (st : PipelineState) (force_recreate : Bool) (env : IngestEnv)
    (docs : List Document) (ans : String)
    (hret : qenv.retrieved = .ok docs) (hllm : qenv.llm = .ok ans) :
    (RAGPipeline.query rs qenv (RAGPipeline.initState d)).result
        = .error (.runtimeError notInitializedMsg) ∧
    ((RAGPipeline.ingest_documents force_recreate env st).result = .ok () →
      (RAGPipeline.query rs qenv
          (RAGPipeline.ingest_documents force_recreate env st).state).result
        = .ok (ans, if rs then some docs else none)) ∧
    ((RAGPipeline.load_existing_index st).result = .ok () →
      (RAGPipeline.query rs qenv (RAGPipeline.load_existing_index st).state).result
        = .ok (ans, if rs then some docs else none)) := by
  refine ⟨?_, ?_, ?_⟩
  · simp [RAGPipeline.query, RAGPipeline.initState]
  · intro hok
    obtain ⟨-, hv, -, hi⟩ := ingest_ok_state force_recreate env st hok
    simp [RAGPipeline.query, hv, hi, hret, hllm]
  · intro hok
    obtain ⟨-, hv, -, hi⟩ := load_ok_state st hok
    simp [RAGPipeline.query, hv, hi, hret, hllm]

/-- Witness for C5 at concrete inputs: fresh pipeline rejection, and success
after a concrete successful ingest and load. -/
theorem query_state_guard_witness :
    (RAGPipeline.query true sampleQueryEnv (RAGPipeline.initState false)).result
        = .error (.runtimeError notInitializedMsg) ∧
    ((RAGPipeline.ingest_documents false sampleIngestEnv
          (RAGPipeline.initState false)).result = .ok () →
      (RAGPipeline.query true sampleQueryEnv
          (RAGPipeline.ingest_documents false sampleIngestEnv
            (RAGPipeline.initState false)).state).result
        = .ok ("the answer", if true then some [sampleDocument] else none)) ∧
    ((RAGPipeline.load_existing_index (RAGPipeline.initState false)).result = .ok () →
      (RAGPipeline.query true sampleQueryEnv
          (RAGPipeline.load_existing_index (RAGPipeline.initState false)).state).result
        = .ok ("the answer", if true then some [sampleDocument] else none)) :=
  query_state_guard false true sampleQueryEnv (RAGPipeline.initState false) false
    sampleIngestEnv [sampleDocument] "the answer" rfl rfl

/-- C6: `load_existing_index` against a location with no persisted index
raises `FileNotFoundError` and leaves the pipeline state unchanged; in
particular a fresh pipeline stays Uninitialized, with no retriever bound and
the initialization flag still false. -/
theorem load_existing_index_missing_store (st : PipelineState)
    (h : st.dirExists = false) :
    (RAGPipeline.load_existing_index st).result
        = .error (.fileNotFoundError vectorStoreNotFoundMsg) ∧
    (RAGPipeline.load_existing_index st).state = st ∧
    (RAGPipeline.load_existing_index (RAGPipeline.initState false)).state.is_initialized
        = false ∧
    (RAGPipeline.load_existing_index (RAGPipeline.initState false)).state.retrieverBound
        = false := by
  refine ⟨?_, ?_, rfl, rfl⟩ <;> simp [RAGPipeline.load_existing_index, h]

/-- Witness for C6 at a fresh pipeline whose persist directory is absent. -/
theorem load_existing_index_missing_store_witness :
    (RAGPipeline.load_existing_index (RAGPipeline.initState false)).result
        = .error (.fileNotFoundError vectorStoreNotFoundMsg) ∧
    (RAGPipeline.load_existing_index (RAGPipeline.initState false)).state
        = RAGPipeline.initState false ∧
    (RAGPipeline.load_existing_index (RAGPipeline.initState false)).state.is_initialized
        = false ∧
    (RAGPipeline.load_existing_index (RAGPipeline.initState false)).state.retrieverBound
        = false :=
  load_existing_index_missing_store (RAGPipeline.initState false) rfl

/-- C7: Ready is absorbing — once the initialization flag is set and a
retriever is bound, every single operation and every sequence of operations
leaves the pipeline Ready. -/
theorem ready_is_permanent (st : PipelineState) (h : Ready st) :
    (∀ op, Ready (RAGPipeline.step st op)) ∧
    ∀ ops, Ready (List.foldl RAGPipeline.step st ops) :=
  ⟨fun op => step_preserves_ready st op h,
   fun ops => foldl_preserves_ready ops st h⟩

/-- Witness for C7 at a concrete Ready state and a concrete operation
sequence. -/
theorem ready_is_permanent_witness :
    Ready (List.foldl RAGPipeline.step ⟨true, true, true, true⟩
      [PipelineOp.loadExistingIndex, PipelineOp.queryOp true sampleQueryEnv]) :=
  (ready_is_permanent ⟨true, true, true, true⟩ ⟨rfl, rfl⟩).2
    [PipelineOp.loadExistingIndex, PipelineOp.queryOp true sampleQueryEnv]

/-- C8: `generate` builds its system message by substituting the context
chunks — numbered into "Source N" blocks joined by blank lines — for the
template placeholder, sends it with the "Question: " user message, returns
the model response unchanged as the answer, and returns exactly the context
list it was given. -/
theorem generate_formats_and_echoes (g : ResponseGenerator)
    (llm : String → String → String) (query : String) (docs : List Document) :
    (g.generate llm query docs).systemMessage
        = (g.system_prompt_template).replace contextPlaceholder
            (String.intercalate "\n\n"
              ((List.enumFrom 1 docs).map
                (fun p => sourceLabel p.1 ++ p.2.page_content))) ∧
    (g.generate llm query docs).userMessage = "Question: " ++ query ∧
    (g.generate llm query docs).answer
        = llm (g.generate llm query docs).systemMessage
            (g.generate llm query docs).userMessage ∧
    (g.generate llm query docs).sources = docs := by
  refine ⟨?_, rfl, rfl, rfl⟩
  simp [ResponseGenerator.generate, ResponseGenerator.formatContext,
    formatContextParts_enumFrom]

/-- C9: when loading a directory, every per-file failure is skipped and the
remaining files still contribute their documents — the result is exactly the
concatenated documents of the successful files — and the operation fails
precisely when zero documents were loaded, raising the loader's
no-documents (or no-files) failure. -/
theorem load_directory_skips_failures (files : List (Except PyError (List Document)))
    (e : PyError) (fs1 fs2 : List (Except PyError (List Document))) :
    DocumentLoader.load_directory files
        = (if okDocs files = [] then
            .error (.valueError
              (if files.isEmpty then noFilesFoundMsg else noDocsLoadedMsg))
          else .ok (okDocs files)) ∧
    okDocs (fs1 ++ .error e :: fs2) = okDocs fs1 ++ okDocs fs2 := by
  constructor
  · unfold DocumentLoader.load_directory
    cases files with
    | nil => simp [okDocs]
    | cons f fs =>
        rw [load_directory_foldl]
        simp only [List.nil_append, List.isEmpty_cons]
        by_cases hd : okDocs (f :: fs) = []
        · simp [hd]
        · simp [hd]
  · simp [okDocs, Except.toOption]

/-- C10: an explicitly supplied zero is treated as an absent argument by
every `or`-defaulted parameter — zero chunk overlap and zero chunk size at
chunker construction become the settings defaults, and a zero `k` override
at retrieve time leaves the index queried with the configured `top_k` —
while the generator's temperature uses an explicit None test, so a zero
temperature is honored rather than replaced by the 0.3 default. -/
theorem zero_override_treated_as_absent (cs ov : Option Int)
    (r : DocumentRetriever) (index : Int → List Document) :
    TextProcessor.init cs (some 0) = TextProcessor.init cs none ∧
    TextProcessor.init (some 0) ov = TextProcessor.init none ov ∧
    TextProcessor.init (some 500) (some 0) = .ok ⟨500, defaultChunkOverlap⟩ ∧
    TextProcessor.init (some 0) (some 50) = .ok ⟨defaultChunkSize, 50⟩ ∧
    DocumentRetriever.retrieve r true index (some 0)
        = DocumentRetriever.retrieve r true index none ∧
    DocumentRetriever.retrieve r true index (some 0) = .ok ⟨r.top_k, index r.top_k⟩ ∧
    (ResponseGenerator.init none (some 0) none).temperature = 0 ∧
    defaultTemperature ≠ 0 := by
  refine ⟨rfl, rfl, by decide, by decide, rfl, rfl, rfl, ?_⟩
  unfold defaultTemperature
  norm_num

end RagSystem
